import Mathlib

/-!
Shallow embedding of the data-access layer of the MBaya facilities dashboard
(`app/lib/supabase.ts`, the auth/profile module, and the STP page statistics).

Modelling conventions:
- JavaScript numbers are modelled exactly: integer-valued columns as `Int`,
  the STP volumes and rate constants as `ℚ` (all operations the claims touch
  are additions and multiplications, exact on these carriers).
- `x | null` columns become `Option _`; the JS truthiness fallback `x || d`
  on strings (where both `null` and the empty string are falsy) becomes
  `jsOr`.
- A JS object used as a string-keyed record becomes an association list
  (`JsObj`) with JS object-update semantics: overwriting a present key keeps
  its position, a new key is appended (insertion order preserved).
- The store (Supabase) is an external oracle: each fetcher takes the response
  the store would return for its query.  A fetcher returns the list of table
  names it queried (its query log) next to its result, so that "no network
  call was issued" is expressible as an empty log.  Query parameters that are
  interpreted store-side (search filters, ordering, range pagination) are not
  modelled: no claim depends on them.
- `async` functions that can reject are embedded as `Except String _`;
  functions that never throw keep their plain result type.
- The single module-level mutable (the lazily cached client) is threaded
  explicitly as `ProcState`.
-/

/-- JavaScript string fallback `x || d` for a nullable string `x`: both
`null` and the empty string are falsy and select the default. -/
def jsOr (x : Option String) (d : String) : String :=
  match x with
  | none => d
  | some s => if s = "" then d else s

/-- JavaScript value restricted to the shapes the store delivers for a
numeric column: a number, a numeric text, or null. -/
inductive JSValue where
  | num (n : Int)
  | str (s : String)
  | null
deriving DecidableEq

/-- Decimal reading of a character list; `none` when a non-digit occurs
(JS `Number` of such a string is `NaN`).  The empty list reads as `0`,
matching the JS behaviour that `Number` of the empty string is `0`. -/
def parseDigits (cs : List Char) : Option Nat :=
  cs.foldl
    (fun acc c =>
      acc.bind (fun n => if c.isDigit then some (10 * n + (c.toNat - 48)) else none))
    (some 0)

/-- JS `Number(v)` on the modelled values: numbers pass through, `null`
reads as `0`, digit strings parse in decimal, anything else is `NaN`
(`none`).  Signs, blanks and fractions do not occur in the claims. -/
def jsNumber : JSValue → Option Int
  | .num n => some n
  | .null => some 0
  | .str s => (parseDigits s.data).map Int.ofNat

/-- JS `Number(v) || 0`: the falsy results `NaN` and `0` both collapse to
`0`, which is exactly `Option.getD 0` on the modelled `Number`. -/
def jsNumberOrZero (v : JSValue) : Int :=
  (jsNumber v).getD 0

/-- JS `Number(x) || 0` on an already-numeric nullable column of type `ℚ`:
`Number(null) = 0`, and `|| 0` maps `0` to `0`, so this is `getD 0`. -/
def qNumberOrZero (x : Option ℚ) : ℚ :=
  x.getD 0

/-- Association list standing for a JS object with string keys. -/
abbrev JsObj (V : Type) := List (String × V)

/-- JS object update `m[k] = v`: overwrite in place when the key is
present (keeping its position), append otherwise. -/
def setKey {V : Type} : JsObj V → String → V → JsObj V
  | [], k, v => [(k, v)]
  | (k₂, v₂) :: rest, k, v =>
      if k₂ = k then (k, v) :: rest else (k₂, v₂) :: setKey rest k v

/-- JS object read `m[k]`: `none` stands for `undefined`. -/
def getKey {V : Type} : JsObj V → String → Option V
  | [], _ => none
  | (k₂, v₂) :: rest, k => if k₂ = k then some v₂ else getKey rest k

/-! ## Remote Data Client accessor (supabase.ts lines 9 to 44) -/

/-- Environment configuration: the two environment-supplied strings
(`NEXT_PUBLIC_SUPABASE_URL`, `NEXT_PUBLIC_SUPABASE_ANON_KEY`), already
defaulted to the empty string when absent. -/
structure SupaConfig where
  url : String
  anonKey : String
deriving DecidableEq

/-- Underlying client handle; `instanceId` is the creation serial number
so that physical identity of the cached instance is observable. -/
structure SupabaseClient where
  url : String
  anonKey : String
  instanceId : Nat
deriving DecidableEq

/-- Module state of supabase.ts: the lazily initialised client
(`let supabaseClient: SupabaseClient | null = null`) plus the fresh-id
counter realising `createClient` identity. -/
structure ProcState where
  client : Option SupabaseClient
  nextId : Nat
deriving DecidableEq

/-- Construction of a fresh underlying client (`createClient`). -/
def createClient (url anonKey : String) (fresh : Nat) : SupabaseClient :=
  ⟨url, anonKey, fresh⟩

/-- JS `s.startsWith(p)`: prefix test on the character sequence. -/
def strStartsWith (s p : String) : Bool :=
  p.data.isPrefixOf s.data

/-- Validation of the anon key: non-empty and starting with `eyJ`. -/
def isValidSupabaseKey (key : String) : Bool :=
  decide (0 < key.length) && strStartsWith key "eyJ"

/-- Configuration check: URL non-empty and starting with `https://`, and
the key valid. -/
def isSupabaseConfigured (cfg : SupaConfig) : Bool :=
  (decide (0 < cfg.url.length) && strStartsWith cfg.url "https://")
    && isValidSupabaseKey cfg.anonKey

/-- Client getter: `null` when unconfigured, otherwise the cached client,
constructing it on first use. -/
def getSupabaseClient (cfg : SupaConfig) (s : ProcState) :
    Option SupabaseClient × ProcState :=
  if isSupabaseConfigured cfg then
    match s.client with
    | some c => (some c, s)
    | none =>
        let c := createClient cfg.url cfg.anonKey s.nextId
        (some c, ⟨some c, s.nextId + 1⟩)
  else
    (none, s)

/-! ## Store responses

Each fetcher awaits one query whose outcome the store decides; the outcome
is passed to the embedded fetcher as an explicit response value. -/

/-- Error object reported by the store (`message` and `code` are its
observed fields). -/
structure SbError where
  message : Option String
  code : Option String
deriving DecidableEq

/-- Text the assets fetcher builds from a store error:
`error.message || error.code || starting fallback`. -/
def sbErrorText (e : SbError) : String :=
  jsOr e.message (jsOr e.code "Unknown error")

/-- Response to a list query: `data` (nullable row list) and `error`. -/
structure StoreResponse (α : Type) where
  data : Option (List α)
  error : Option SbError

/-- Response to the assets query, which additionally carries the exact
`count`. -/
structure CountResponse (α : Type) where
  data : Option (List α)
  error : Option SbError
  count : Option Int

/-! ## Assets (supabase.ts lines 46 to 143) -/

/-- Columns of `mb_assets` read by `transformAsset`; the remaining columns
of the `SupabaseAsset` interface are pass-through data no claim observes
and are omitted. -/
structure SupabaseAsset where
  id : Int
  asset_id : Option String
  asset_tag : Option String
  asset_name : Option String
  asset_type : Option String
  category : Option String
  location_name : Option String
  building : Option String
  install_date : Option String
  status : Option String
deriving DecidableEq

/-- View-model shape of an asset (the `Asset` interface of mock-data). -/
structure Asset where
  id : String
  name : String
  type : String
  location : String
  status : String
  purchaseDate : String
  value : Int
  serialNumber : String
  lastService : String
deriving DecidableEq

/-- Row-to-view-model transform for assets. -/
def transformAsset (dbAsset : SupabaseAsset) : Asset :=
  { id := toString dbAsset.id
  , name := jsOr dbAsset.asset_name "Unknown Asset"
  , type := jsOr dbAsset.asset_type (jsOr dbAsset.category "General")
  , location := jsOr dbAsset.location_name (jsOr dbAsset.building "Unknown Location")
  , status := jsOr dbAsset.status "Active"
  , purchaseDate := jsOr dbAsset.install_date ""
  , value := 0
  , serialNumber := jsOr dbAsset.asset_tag (jsOr dbAsset.asset_id "")
  , lastService := "" }

/-- Assets fetcher: neutral `{data: [], count: 0}` without any query when
the client is missing; on a store error it throws
`Supabase error: <text>` and the surrounding `catch` re-throws it, so the
error reaches the caller (`Except.error`); otherwise rows are transformed
and the count defaulted (`count || 0`). -/
def getAssetsFromSupabase (client : Option SupabaseClient)
    (page pageSize : Int) (search : String)
    (resp : CountResponse SupabaseAsset) :
    List String × Except String (List Asset × Int) :=
  match client with
  | none => ([], .ok ([], 0))
  | some _ =>
      -- range start and stop and the search or-filter are applied store-side
      match resp.error with
      | some err => (["mb_assets"], .error ("Supabase error: " ++ sbErrorText err))
      | none =>
          (["mb_assets"], .ok ((resp.data.getD []).map transformAsset, resp.count.getD 0))

/-! ## Contractor and AMC fetchers (supabase.ts lines 145 to 418)

These fetchers return their rows raw (`data || []`), so each is generic in
its row type; a store error is swallowed to the neutral `[]`. -/

/-- Fetcher for the `Contractor_Tracker` table. -/
def getContractorTrackerData {α : Type} (client : Option SupabaseClient)
    (resp : StoreResponse α) : List String × List α :=
  match client with
  | none => ([], [])
  | some _ =>
      match resp.error with
      | some _ => (["Contractor_Tracker"], [])
      | none => (["Contractor_Tracker"], resp.data.getD [])

/-- Fetcher for `amc_contractor_summary`. -/
def getContractorSummary {α : Type} (client : Option SupabaseClient)
    (resp : StoreResponse α) : List String × List α :=
  match client with
  | none => ([], [])
  | some _ =>
      match resp.error with
      | some _ => (["amc_contractor_summary"], [])
      | none => (["amc_contractor_summary"], resp.data.getD [])

/-- Fetcher for `amc_contractor_details`. -/
def getContractorDetails {α : Type} (client : Option SupabaseClient)
    (resp : StoreResponse α) : List String × List α :=
  match client with
  | none => ([], [])
  | some _ =>
      match resp.error with
      | some _ => (["amc_contractor_details"], [])
      | none => (["amc_contractor_details"], resp.data.getD [])

/-- Fetcher for `amc_contractor_expiry`. -/
def getContractorExpiry {α : Type} (client : Option SupabaseClient)
    (resp : StoreResponse α) : List String × List α :=
  match client with
  | none => ([], [])
  | some _ =>
      match resp.error with
      | some _ => (["amc_contractor_expiry"], [])
      | none => (["amc_contractor_expiry"], resp.data.getD [])

/-- Fetcher for `amc_contractor_pricing`. -/
def getContractorPricing {α : Type} (client : Option SupabaseClient)
    (resp : StoreResponse α) : List String × List α :=
  match client with
  | none => ([], [])
  | some _ =>
      match resp.error with
      | some _ => (["amc_contractor_pricing"], [])
      | none => (["amc_contractor_pricing"], resp.data.getD [])

/-- Legacy fetcher for `amc_contracts`. -/
def getAmcContracts {α : Type} (client : Option SupabaseClient)
    (resp : StoreResponse α) : List String × List α :=
  match client with
  | none => ([], [])
  | some _ =>
      match resp.error with
      | some _ => (["amc_contracts"], [])
      | none => (["amc_contracts"], resp.data.getD [])

/-- Legacy fetcher for `amc_expiry`. -/
def getAmcExpiry {α : Type} (client : Option SupabaseClient)
    (resp : StoreResponse α) : List String × List α :=
  match client with
  | none => ([], [])
  | some _ =>
      match resp.error with
      | some _ => (["amc_expiry"], [])
      | none => (["amc_expiry"], resp.data.getD [])

/-- Legacy fetcher for `amc_contacts`. -/
def getAmcContacts {α : Type} (client : Option SupabaseClient)
    (resp : StoreResponse α) : List String × List α :=
  match client with
  | none => ([], [])
  | some _ =>
      match resp.error with
      | some _ => (["amc_contacts"], [])
      | none => (["amc_contacts"], resp.data.getD [])

/-- Legacy fetcher for `amc_pricing`. -/
def getAmcPricing {α : Type} (client : Option SupabaseClient)
    (resp : StoreResponse α) : List String × List α :=
  match client with
  | none => ([], [])
  | some _ =>
      match resp.error with
      | some _ => (["amc_pricing"], [])
      | none => (["amc_pricing"], resp.data.getD [])

/-- Row of `amc_contractor_summary` (fields the combined transform reads;
the money and date text columns it ignores are omitted). -/
structure AmcContractorSummary where
  id : String
  no : Int
  contractor : String
  service_category : Option String
  end_date : Option String
  status : Option String
deriving DecidableEq

/-- View-model shape of a contractor (the `Contractor` interface). -/
structure Contractor where
  id : String
  name : String
  company : String
  status : String
  expiryDate : String
  category : String
deriving DecidableEq

/-- Combined contractor fetch: rows of the summary fetcher mapped to the
UI shape. -/
def getCombinedContractors (client : Option SupabaseClient)
    (resp : StoreResponse AmcContractorSummary) : List String × List Contractor :=
  let fetched := getContractorSummary client resp
  (fetched.1,
    fetched.2.map (fun item =>
      { id := item.id
      , name := item.contractor
      , company := item.contractor
      , status := jsOr item.status "Active"
      , expiryDate := jsOr item.end_date ""
      , category := jsOr item.service_category "" }))

/-! ## Electricity meters (supabase.ts lines 420 to 497) -/

/-- Row of `electricity_meters`. -/
structure ElectricityMeter where
  id : String
  name : String
  meter_type : String
  account_number : Option String
deriving DecidableEq

/-- Row of `electricity_readings`; `consumption` arrives from the store as
an arbitrary JS value and is coerced with `Number`. -/
structure ElectricityReading where
  id : String
  meter_id : String
  month : String
  consumption : JSValue
deriving DecidableEq

/-- View-model shape of a meter with its month-keyed readings
(the `MeterReading` interface). -/
structure MeterReading where
  id : String
  name : String
  account_number : String
  type : String
  readings : JsObj Int
deriving DecidableEq

/-- Grouping pass of the fetcher: `readingsByMeter[meter_id][month] =
Number(consumption) || 0`, creating the inner object on first sight of a
meter id. -/
def buildReadingsByMeter (readings : List ElectricityReading) :
    JsObj (JsObj Int) :=
  readings.foldl
    (fun acc r =>
      let inner := (getKey acc r.meter_id).getD []
      setKey acc r.meter_id (setKey inner r.month (jsNumberOrZero r.consumption)))
    []

/-- Transform pass of the fetcher: each meter keeps its identity fields and
receives `readingsByMeter[meter.id] || empty`. -/
def joinElectricityReadings (meters : List ElectricityMeter)
    (readings : List ElectricityReading) : List MeterReading :=
  let readingsByMeter := buildReadingsByMeter readings
  meters.map (fun meter =>
    { id := meter.id
    , name := meter.name
    , account_number := jsOr meter.account_number ""
    , type := meter.meter_type
    , readings := (getKey readingsByMeter meter.id).getD [] })

/-- Electricity fetcher: two consecutive queries (meters, then readings);
missing client, either store error, or an empty meter list all yield the
neutral `[]`; the readings query is only issued when meters arrived
non-empty. -/
def getElectricityMetersFromSupabase (client : Option SupabaseClient)
    (metersResp : StoreResponse ElectricityMeter)
    (readingsResp : StoreResponse ElectricityReading) :
    List String × List MeterReading :=
  match client with
  | none => ([], [])
  | some _ =>
      match metersResp.error with
      | some _ => (["electricity_meters"], [])
      | none =>
          match metersResp.data.getD [] with
          | [] => (["electricity_meters"], [])
          | meters =>
              match readingsResp.error with
              | some _ => (["electricity_meters", "electricity_readings"], [])
              | none =>
                  (["electricity_meters", "electricity_readings"],
                    joinElectricityReadings meters (readingsResp.data.getD []))

/-! ## STP operations (supabase.ts lines 499 to 564) -/

/-- Row of `stp_operations` (the unused `monthly_*` and `original_id`
columns are omitted). -/
structure SupabaseSTPOperation where
  id : Int
  date : String
  inlet_sewage : Option ℚ
  tse_for_irrigation : Option ℚ
  tanker_trips : Option ℚ
  generated_income : Option ℚ
  water_savings : Option ℚ
  total_impact : Option ℚ
deriving DecidableEq

/-- View-model shape of an STP operation (the `STPOperation` interface):
raw volumes are plain numbers, the three derived economic fields stay
optional (`undefined` when the row holds null). -/
structure STPOperation where
  id : String
  date : String
  inlet_sewage : ℚ
  tse_for_irrigation : ℚ
  tanker_trips : ℚ
  generated_income : Option ℚ
  water_savings : Option ℚ
  total_impact : Option ℚ
deriving DecidableEq

/-- Row-to-view-model transform for STP operations: raw volumes via
`Number(x) || 0`, derived fields via `x != null ? Number(x) : undefined`
(`Number` is the identity on an already-numeric value). -/
def transformSTPOperation (dbRecord : SupabaseSTPOperation) : STPOperation :=
  { id := toString dbRecord.id
  , date := dbRecord.date
  , inlet_sewage := qNumberOrZero dbRecord.inlet_sewage
  , tse_for_irrigation := qNumberOrZero dbRecord.tse_for_irrigation
  , tanker_trips := qNumberOrZero dbRecord.tanker_trips
  , generated_income :=
      match dbRecord.generated_income with
      | some q => some q
      | none => none
  , water_savings :=
      match dbRecord.water_savings with
      | some q => some q
      | none => none
  , total_impact :=
      match dbRecord.total_impact with
      | some q => some q
      | none => none }

/-- STP fetcher: missing client, store error, or empty data yield the
neutral `[]`; otherwise rows are transformed. -/
def getSTPOperationsFromSupabase (client : Option SupabaseClient)
    (resp : StoreResponse SupabaseSTPOperation) :
    List String × List STPOperation :=
  match client with
  | none => ([], [])
  | some _ =>
      match resp.error with
      | some _ => (["stp_operations"], [])
      | none =>
          match resp.data.getD [] with
          | [] => (["stp_operations"], [])
          | rows => (["stp_operations"], rows.map transformSTPOperation)

/-! ## STP page statistics (the STP page component, lines 128 to 148)

The rate constants `TANKER_FEE` and `TSE_SAVING_RATE` live in
`lib/config.ts`, which is not part of the sources; the statistics are
therefore parameterised by the two rates, which the claims quantify over. -/

/-- Aggregates the STP page derives from the (filtered) operations. -/
structure STPStats where
  totalInlet : ℚ
  totalTSE : ℚ
  totalTrips : ℚ
  generatedIncome : ℚ
  waterSavings : ℚ
  totalEconomicImpact : ℚ
  treatmentEfficiency : ℚ
  dailyAverageInlet : ℚ
deriving DecidableEq

/-- Statistics computation of the STP page: totals are folds over the
operations, income and savings are products of raw totals with the fixed
rates, impact is their sum. -/
def stpStats (tankerFee tseSavingRate : ℚ) (operations : List STPOperation) :
    STPStats :=
  let totalInlet := operations.foldl (fun sum op => sum + op.inlet_sewage) 0
  let totalTSE := operations.foldl (fun sum op => sum + op.tse_for_irrigation) 0
  let totalTrips := operations.foldl (fun sum op => sum + op.tanker_trips) 0
  let generatedIncome := totalTrips * tankerFee
  let waterSavings := totalTSE * tseSavingRate
  let totalEconomicImpact := generatedIncome + waterSavings
  let treatmentEfficiency :=
    if 0 < totalInlet then totalTSE / totalInlet * 100 else 0
  let dailyAverageInlet :=
    if 0 < operations.length then totalInlet / (operations.length : ℚ) else 0
  ⟨totalInlet, totalTSE, totalTrips, generatedIncome, waterSavings,
    totalEconomicImpact, treatmentEfficiency, dailyAverageInlet⟩

/-! ## Water meters (supabase.ts lines 566 to 650) -/

/-- Row of the `Water System` table: identity columns plus twelve separate
nullable month columns. -/
structure SupabaseWaterMeter where
  id : Int
  label : String
  account_number : String
  level : String
  zone : String
  parent_meter : String
  type : String
  jan_25 : Option Int
  feb_25 : Option Int
  mar_25 : Option Int
  apr_25 : Option Int
  may_25 : Option Int
  jun_25 : Option Int
  jul_25 : Option Int
  aug_25 : Option Int
  sep_25 : Option Int
  oct_25 : Option Int
  nov_25 : Option Int
  dec_25 : Option Int
deriving DecidableEq

/-- View-model shape of a water meter (the `WaterMeter` interface);
`consumption` is the month-keyed mapping with nullable values. -/
structure WaterMeter where
  label : String
  accountNumber : String
  level : String
  zone : String
  parentMeter : String
  type : String
  consumption : JsObj (Option Int)
deriving DecidableEq

/-- Row-to-view-model transform for water meters: eleven fixed month keys
(`Jan-25` through `Nov-25`, `dec_25` left out) with the column values kept
verbatim, nulls included. -/
def transformWaterMeter (dbMeter : SupabaseWaterMeter) : WaterMeter :=
  let consumption : JsObj (Option Int) :=
    [ ("Jan-25", dbMeter.jan_25)
    , ("Feb-25", dbMeter.feb_25)
    , ("Mar-25", dbMeter.mar_25)
    , ("Apr-25", dbMeter.apr_25)
    , ("May-25", dbMeter.may_25)
    , ("Jun-25", dbMeter.jun_25)
    , ("Jul-25", dbMeter.jul_25)
    , ("Aug-25", dbMeter.aug_25)
    , ("Sep-25", dbMeter.sep_25)
    , ("Oct-25", dbMeter.oct_25)
    , ("Nov-25", dbMeter.nov_25) ]
  { label := jsOr (some dbMeter.label) "Unknown Meter"
  , accountNumber := jsOr (some dbMeter.account_number) ""
  , level := jsOr (some dbMeter.level) "N/A"
  , zone := jsOr (some dbMeter.zone) ""
  , parentMeter := jsOr (some dbMeter.parent_meter) ""
  , type := jsOr (some dbMeter.type) ""
  , consumption := consumption }

/-- Water fetcher: missing client, store error, or empty data yield the
neutral `[]`; otherwise rows are transformed. -/
def getWaterMetersFromSupabase (client : Option SupabaseClient)
    (resp : StoreResponse SupabaseWaterMeter) :
    List String × List WaterMeter :=
  match client with
  | none => ([], [])
  | some _ =>
      match resp.error with
      | some _ => (["Water System"], [])
      | none =>
          match resp.data.getD [] with
          | [] => (["Water System"], [])
          | rows => (["Water System"], rows.map transformWaterMeter)

/-! ## Auth and profile operations (the auth module) -/

/-- Response of an auth or mutation call that carries data. -/
structure AuthResult (α : Type) where
  data : α
  error : Option String

/-- Response of an auth call that carries no data. -/
structure AuthStatus where
  error : Option String

/-- Sign-up: rejects when unconfigured, re-throws the store error,
otherwise returns the data. -/
def signUp {α : Type} (client : Option SupabaseClient) (resp : AuthResult α) :
    Except String α :=
  match client with
  | none => .error "Supabase not configured"
  | some _ =>
      match resp.error with
      | some e => .error e
      | none => .ok resp.data

/-- Sign-in: rejects when unconfigured, re-throws the store error,
otherwise returns the data. -/
def signIn {α : Type} (client : Option SupabaseClient) (resp : AuthResult α) :
    Except String α :=
  match client with
  | none => .error "Supabase not configured"
  | some _ =>
      match resp.error with
      | some e => .error e
      | none => .ok resp.data

/-- Sign-out: rejects when unconfigured, re-throws the store error. -/
def signOut (client : Option SupabaseClient) (resp : AuthStatus) :
    Except String Unit :=
  match client with
  | none => .error "Supabase not configured"
  | some _ =>
      match resp.error with
      | some e => .error e
      | none => .ok ()

/-- Password reset: rejects when unconfigured, re-throws the store
error. -/
def resetPassword (client : Option SupabaseClient) (resp : AuthStatus) :
    Except String Unit :=
  match client with
  | none => .error "Supabase not configured"
  | some _ =>
      match resp.error with
      | some e => .error e
      | none => .ok ()

/-- Password update: rejects when unconfigured, re-throws the store
error. -/
def updatePassword (client : Option SupabaseClient) (resp : AuthStatus) :
    Except String Unit :=
  match client with
  | none => .error "Supabase not configured"
  | some _ =>
      match resp.error with
      | some e => .error e
      | none => .ok ()

/-- Profile upsert: rejects when unconfigured, re-throws the store error,
otherwise returns the upserted row. -/
def updateUserProfile {α : Type} (client : Option SupabaseClient)
    (resp : AuthResult α) : Except String α :=
  match client with
  | none => .error "Supabase not configured"
  | some _ =>
      match resp.error with
      | some e => .error e
      | none => .ok resp.data

/-- Row of the `profiles` table. -/
structure ProfileRow where
  id : String
  email : Option String
  full_name : Option String
  username : Option String
  avatar_url : Option String
  website : Option String
  role : Option String
deriving DecidableEq

/-- View-model of a user profile (the `UserProfile` interface). -/
structure UserProfile where
  id : String
  email : String
  full_name : Option String
  username : Option String
  avatar_url : Option String
  website : Option String
  role : String
deriving DecidableEq

/-- Profile read response: `data` is the single row or null. -/
structure SingleResponse (α : Type) where
  data : Option α
  error : Option String

/-- Profile read: degrades to `null` when unconfigured, on a store error,
or on a missing row; never throws. -/
def getUserProfile (client : Option SupabaseClient)
    (resp : SingleResponse ProfileRow) : Option UserProfile :=
  match client with
  | none => none
  | some _ =>
      match resp.error with
      | some _ => none
      | none =>
          match resp.data with
          | none => none
          | some d =>
              some
                { id := d.id
                , email := jsOr d.email ""
                , full_name := d.full_name
                , username := d.username
                , avatar_url := d.avatar_url
                , website := d.website
                , role := jsOr d.role "user" }

/-! ## Module-state threading for the transforms

The only module-level mutable of supabase.ts is the cached client; the
pure transforms are embedded into the module state explicitly so that
freedom from hidden mutable state is a statement, not a convention. -/

/-- Module state visible to code in supabase.ts. -/
abbrev ModuleState := Option SupabaseClient

/-- The asset transform run against the module state (it neither reads nor
writes it). -/
def runTransformAsset (s : ModuleState) (r : SupabaseAsset) :
    Asset × ModuleState :=
  (transformAsset r, s)

/-- The STP transform run against the module state. -/
def runTransformSTPOperation (s : ModuleState) (r : SupabaseSTPOperation) :
    STPOperation × ModuleState :=
  (transformSTPOperation r, s)

/-- The water transform run against the module state. -/
def runTransformWaterMeter (s : ModuleState) (r : SupabaseWaterMeter) :
    WaterMeter × ModuleState :=
  (transformWaterMeter r, s)

/-! ## Shared lemmas about the JS object model -/

/-- Reading the key just written returns the written value. -/
theorem getKey_setKey_self {V : Type} (m : JsObj V) (k : String) (v : V) :
    getKey (setKey m k v) k = some v := by
  induction m with
  | nil => simp [setKey, getKey]
  | cons p rest ih =>
      obtain ⟨k₂, v₂⟩ := p
      by_cases h : k₂ = k <;> simp [setKey, getKey, h, ih]

/-- Writing one key leaves the reads of every other key unchanged. -/
theorem getKey_setKey_ne {V : Type} (m : JsObj V) {k k₂ : String} (v : V)
    (h : k ≠ k₂) : getKey (setKey m k v) k₂ = getKey m k₂ := by
  induction m with
  | nil => simp [setKey, getKey, h]
  | cons p rest ih =>
      obtain ⟨k₃, v₃⟩ := p
      by_cases h₃ : k₃ = k
      · subst h₃
        simp [setKey, getKey, h]
      · simp [setKey, getKey, h₃, ih]

/-- Month-map accumulation for one meter: the inner-loop body of
`buildReadingsByMeter` applied to the readings of a single meter. -/
def updMonths (m₀ : JsObj Int) (rs : List ElectricityReading) : JsObj Int :=
  rs.foldl (fun m r => setKey m r.month (jsNumberOrZero r.consumption)) m₀

theorem updMonths_nil (m₀ : JsObj Int) : updMonths m₀ [] = m₀ := rfl

theorem updMonths_cons (m₀ : JsObj Int) (r : ElectricityReading)
    (rs : List ElectricityReading) :
    updMonths m₀ (r :: rs)
      = updMonths (setKey m₀ r.month (jsNumberOrZero r.consumption)) rs := rfl

/-- Shorthand for the grouping fold of `buildReadingsByMeter` started from
an arbitrary accumulator. -/
def buildFrom (acc : JsObj (JsObj Int)) (rs : List ElectricityReading) :
    JsObj (JsObj Int) :=
  rs.foldl
    (fun acc r =>
      let inner := (getKey acc r.meter_id).getD []
      setKey acc r.meter_id (setKey inner r.month (jsNumberOrZero r.consumption)))
    acc

theorem buildReadingsByMeter_eq_buildFrom (rs : List ElectricityReading) :
    buildReadingsByMeter rs = buildFrom [] rs := rfl

/-- Characterisation of the grouping fold: the group stored under a meter
id is the month map accumulated from exactly the readings carrying that
meter id, in order. -/
theorem getKey_buildFrom (rs : List ElectricityReading)
    (acc : JsObj (JsObj Int)) (id : String) :
    getKey (buildFrom acc rs) id
      = if rs.filter (fun r => r.meter_id == id) = [] then getKey acc id
        else some (updMonths ((getKey acc id).getD [])
          (rs.filter (fun r => r.meter_id == id))) := by
  induction rs generalizing acc with
  | nil => simp [buildFrom]
  | cons r rs ih =>
      have hstep :
          buildFrom acc (r :: rs)
            = buildFrom
                (setKey acc r.meter_id
                  (setKey ((getKey acc r.meter_id).getD []) r.month
                    (jsNumberOrZero r.consumption))) rs := rfl
      by_cases hr : r.meter_id = id
      · subst hr
        have hkey :
            getKey
                (setKey acc r.meter_id
                  (setKey ((getKey acc r.meter_id).getD []) r.month
                    (jsNumberOrZero r.consumption))) r.meter_id
              = some (setKey ((getKey acc r.meter_id).getD []) r.month
                  (jsNumberOrZero r.consumption)) :=
          getKey_setKey_self ..
        rw [hstep, ih, hkey]
        by_cases hrel : rs.filter (fun x => x.meter_id == r.meter_id) = [] <;>
          simp [hrel, updMonths_cons, updMonths_nil]
      · have hne : (r.meter_id == id) = false := by
          simpa using hr
        have hkey :
            getKey
                (setKey acc r.meter_id
                  (setKey ((getKey acc r.meter_id).getD []) r.month
                    (jsNumberOrZero r.consumption))) id
              = getKey acc id :=
          getKey_setKey_ne _ _ hr
        rw [hstep, ih, hkey]
        simp [hne]

/-- Pointwise form of the electricity join: each fetched meter yields one
entry whose readings are accumulated from exactly its own readings. -/
theorem joinElectricityReadings_eq (meters : List ElectricityMeter)
    (rs : List ElectricityReading) :
    joinElectricityReadings meters rs
      = meters.map (fun meter =>
          { id := meter.id
          , name := meter.name
          , account_number := jsOr meter.account_number ""
          , type := meter.meter_type
          , readings := updMonths [] (rs.filter (fun r => r.meter_id == meter.id)) }) := by
  unfold joinElectricityReadings
  apply List.map_congr_left
  intro meter _
  rw [buildReadingsByMeter_eq_buildFrom, getKey_buildFrom]
  by_cases hrel : rs.filter (fun r => r.meter_id == meter.id) = [] <;>
    simp [hrel, getKey, updMonths_nil]

/-! ## Concrete inputs used by counterexamples and witnesses -/

/-- Valid concrete client handle. -/
def demoClient : SupabaseClient :=
  createClient "https://demo.supabase.co" "eyJdemo" 0

/-- Store error with the message `boom`. -/
def boomError : SbError := ⟨some "boom", none⟩

/-- STP row whose stored derived fields disagree with any product of its
raw volumes and a rate. -/
def stpRowA : SupabaseSTPOperation :=
  ⟨1, "2025-01-01", some 100, some 200, some 10, some 5, some 3, some 8⟩

/-- STP row with the same raw volumes as `stpRowA` but different stored
derived fields. -/
def stpRowB : SupabaseSTPOperation :=
  ⟨2, "2025-01-01", some 100, some 200, some 10, some 7, some 4, some 11⟩

/-- STP row whose nullable columns are all null. -/
def stpRowNull : SupabaseSTPOperation :=
  ⟨3, "2025-02-01", none, none, none, none, none, none⟩

/-- Water meter row with `jan_25 = 50` and `feb_25 = null`. -/
def sampleWaterMeter : SupabaseWaterMeter :=
  ⟨1, "Meter 1", "ACC-1", "L1", "Zone 1", "Main Line", "Residential",
    some 50, none, none, none, none, none, none, none, none, none, none, none⟩

/-! ## Claims -/

/-- C1 counterexample.  The claim states that no store error is ever
propagated to the caller of a read-path fetcher, `getAssetsFromSupabase`
included.  On a concrete store error the assets fetcher throws
`Supabase error: boom` (its `catch` block re-throws), so the caller
receives the error rather than the neutral `{data: [], count: 0}`. -/
theorem getAssetsFromSupabase_propagates_error_cex :
    (getAssetsFromSupabase (some demoClient) 1 50 "" ⟨none, some boomError, none⟩)
        = (["mb_assets"], .error "Supabase error: boom")
      ∧ (getAssetsFromSupabase (some demoClient) 1 50 "" ⟨none, some boomError, none⟩).2
        ≠ .ok ([], 0) := by
  exact ⟨rfl, fun h => Except.noConfusion h⟩

/-- C1 amended.  Every read-path fetcher except `getAssetsFromSupabase`
converts a store error into its neutral empty value; the assets fetcher
alone wraps the store error into `Supabase error: <text>` and re-throws
it to its caller. -/
theorem fetchers_error_neutral_except_assets
    (α : Type) (c : SupabaseClient) (err errR : SbError)
    (d : Option (List α))
    (dA : Option (List SupabaseAsset)) (cnt : Option Int)
    (page pageSize : Int) (search : String)
    (dS : Option (List AmcContractorSummary))
    (dM : Option (List ElectricityMeter))
    (m : ElectricityMeter) (restM : List ElectricityMeter)
    (dR : Option (List ElectricityReading))
    (dP : Option (List SupabaseSTPOperation))
    (dW : Option (List SupabaseWaterMeter)) :
    (getContractorTrackerData (some c) ⟨d, some err⟩).2 = []
    ∧ (getContractorSummary (some c) ⟨d, some err⟩).2 = []
    ∧ (getContractorDetails (some c) ⟨d, some err⟩).2 = []
    ∧ (getContractorExpiry (some c) ⟨d, some err⟩).2 = []
    ∧ (getContractorPricing (some c) ⟨d, some err⟩).2 = []
    ∧ (getAmcContracts (some c) ⟨d, some err⟩).2 = []
    ∧ (getAmcExpiry (some c) ⟨d, some err⟩).2 = []
    ∧ (getAmcContacts (some c) ⟨d, some err⟩).2 = []
    ∧ (getAmcPricing (some c) ⟨d, some err⟩).2 = []
    ∧ (getCombinedContractors (some c) ⟨dS, some err⟩).2 = []
    ∧ (getElectricityMetersFromSupabase (some c) ⟨dM, some err⟩ ⟨dR, none⟩).2 = []
    ∧ (getElectricityMetersFromSupabase (some c) ⟨some (m :: restM), none⟩
        ⟨dR, some errR⟩).2 = []
    ∧ (getSTPOperationsFromSupabase (some c) ⟨dP, some err⟩).2 = []
    ∧ (getWaterMetersFromSupabase (some c) ⟨dW, some err⟩).2 = []
    ∧ (getAssetsFromSupabase (some c) page pageSize search ⟨dA, some err, cnt⟩).2
        = .error ("Supabase error: " ++ sbErrorText err) := by
  exact ⟨rfl, rfl, rfl, rfl, rfl, rfl, rfl, rfl, rfl, rfl, rfl, rfl, rfl, rfl, rfl⟩

/-- C2 counterexample.  The claim states that the STP view-model computes
`generated_income` from the raw volumes and a fixed per-trip rate, never
taking it verbatim from the stored row.  Two rows with identical raw
volumes (`tanker_trips = 10`) but different stored incomes produce
view-models with the respective stored incomes `5` and `7`, which cannot
both equal `10 × rate` for any rate, and the output is verbatim the
stored column. -/
theorem transformSTPOperation_income_verbatim_cex :
    (transformSTPOperation stpRowA).tanker_trips
        = (transformSTPOperation stpRowB).tanker_trips
      ∧ (transformSTPOperation stpRowA).tse_for_irrigation
        = (transformSTPOperation stpRowB).tse_for_irrigation
      ∧ (transformSTPOperation stpRowA).inlet_sewage
        = (transformSTPOperation stpRowB).inlet_sewage
      ∧ (transformSTPOperation stpRowA).generated_income = some 5
      ∧ (transformSTPOperation stpRowB).generated_income = some 7
      ∧ (transformSTPOperation stpRowA).generated_income
        ≠ (transformSTPOperation stpRowB).generated_income
      ∧ (transformSTPOperation stpRowA).generated_income
        = stpRowA.generated_income := by
  refine ⟨rfl, rfl, rfl, rfl, rfl, ?_, rfl⟩
  simp [transformSTPOperation, stpRowA, stpRowB]

/-- C2 amended.  The derived economic figures satisfying
`generatedIncome = totalTrips × TANKER_FEE` and
`waterSavings = totalTSE × TSE_SAVING_RATE` are computed in the STP page
statistics layer from the raw volumes of the view-models, for any values
of the two rate constants; the data-layer view-model itself carries the
three derived columns verbatim from the stored row (absent when null). -/
theorem stp_derived_fields_amended (tankerFee tseSavingRate : ℚ)
    (ops : List STPOperation) (row : SupabaseSTPOperation) :
    (stpStats tankerFee tseSavingRate ops).generatedIncome
        = (stpStats tankerFee tseSavingRate ops).totalTrips * tankerFee
      ∧ (stpStats tankerFee tseSavingRate ops).waterSavings
        = (stpStats tankerFee tseSavingRate ops).totalTSE * tseSavingRate
      ∧ (stpStats tankerFee tseSavingRate ops).totalEconomicImpact
        = (stpStats tankerFee tseSavingRate ops).generatedIncome
          + (stpStats tankerFee tseSavingRate ops).waterSavings
      ∧ (transformSTPOperation row).generated_income = row.generated_income
      ∧ (transformSTPOperation row).water_savings = row.water_savings
      ∧ (transformSTPOperation row).total_impact = row.total_impact := by
  refine ⟨rfl, rfl, rfl, ?_, ?_, ?_⟩
  · cases h : row.generated_income <;> simp [transformSTPOperation, h]
  · cases h : row.water_savings <;> simp [transformSTPOperation, h]
  · cases h : row.total_impact <;> simp [transformSTPOperation, h]

/-- C3.  With no client available (the accessor returned null), every
domain fetcher returns its documented neutral empty value with an empty
query log: no query is issued against the store and no error is
raised. -/
theorem fetchers_neutral_without_client
    (α : Type) (page pageSize : Int) (search : String)
    (respA : CountResponse SupabaseAsset) (resp : StoreResponse α)
    (respS : StoreResponse AmcContractorSummary)
    (respM : StoreResponse ElectricityMeter)
    (respR : StoreResponse ElectricityReading)
    (respP : StoreResponse SupabaseSTPOperation)
    (respW : StoreResponse SupabaseWaterMeter) :
    getAssetsFromSupabase none page pageSize search respA = ([], .ok ([], 0))
    ∧ getContractorTrackerData none resp = ([], [])
    ∧ getContractorSummary none resp = ([], [])
    ∧ getContractorDetails none resp = ([], [])
    ∧ getContractorExpiry none resp = ([], [])
    ∧ getContractorPricing none resp = ([], [])
    ∧ getAmcContracts none resp = ([], [])
    ∧ getAmcExpiry none resp = ([], [])
    ∧ getAmcContacts none resp = ([], [])
    ∧ getAmcPricing none resp = ([], [])
    ∧ getCombinedContractors none respS = ([], [])
    ∧ getElectricityMetersFromSupabase none respM respR = ([], [])
    ∧ getSTPOperationsFromSupabase none respP = ([], [])
    ∧ getWaterMetersFromSupabase none respW = ([], []) := by
  exact ⟨rfl, rfl, rfl, rfl, rfl, rfl, rfl, rfl, rfl, rfl, rfl, rfl, rfl, rfl⟩

/-- Unfolding of the configuration check into the four failure causes the
specification enumerates. -/
theorem isSupabaseConfigured_eq_false_iff (cfg : SupaConfig) :
    isSupabaseConfigured cfg = false
      ↔ (cfg.url.length = 0 ∨ strStartsWith cfg.url "https://" = false
          ∨ cfg.anonKey.length = 0 ∨ strStartsWith cfg.anonKey "eyJ" = false) := by
  unfold isSupabaseConfigured isValidSupabaseKey
  cases h₁ : strStartsWith cfg.url "https://" <;>
    cases h₂ : strStartsWith cfg.anonKey "eyJ" <;>
      simp [h₁, h₂] <;> omega

/-- C4.  The client getter returns null exactly when the configuration is
invalid (URL empty or not `https://`-prefixed, or key empty or not
`eyJ`-prefixed).  With a valid configuration it serves the cached
instance: a call finding a cached client returns it and leaves the state
untouched, any call returning a client leaves the process in a state from
which every further call returns that identical client unchanged, and a
cached instance is never invalidated by any call. -/
theorem getSupabaseClient_contract (cfg : SupaConfig) (s : ProcState) :
    ((getSupabaseClient cfg s).1 = none
        ↔ (cfg.url.length = 0 ∨ strStartsWith cfg.url "https://" = false
            ∨ cfg.anonKey.length = 0 ∨ strStartsWith cfg.anonKey "eyJ" = false))
      ∧ (∀ c, s.client = some c → isSupabaseConfigured cfg = true →
          getSupabaseClient cfg s = (some c, s))
      ∧ (∀ c, (getSupabaseClient cfg s).1 = some c →
          getSupabaseClient cfg (getSupabaseClient cfg s).2
            = (some c, (getSupabaseClient cfg s).2))
      ∧ (∀ c, s.client = some c → ((getSupabaseClient cfg s).2).client = some c) := by
  refine ⟨?_, ?_, ?_, ?_⟩
  · rw [← isSupabaseConfigured_eq_false_iff]
    by_cases hc : isSupabaseConfigured cfg
    · cases hs : s.client <;> simp [getSupabaseClient, hc, hs]
    · simp [getSupabaseClient, hc]
  · intro c hs hc
    simp [getSupabaseClient, hc, hs]
  · intro c h
    by_cases hc : isSupabaseConfigured cfg
    · cases hs : s.client with
      | some c₀ =>
          simp [getSupabaseClient, hc, hs] at h ⊢
          exact h
      | none =>
          simp [getSupabaseClient, hc, hs] at h ⊢
          exact h
    · simp [getSupabaseClient, hc] at h
  · intro c hs
    by_cases hc : isSupabaseConfigured cfg <;>
      simp [getSupabaseClient, hc, hs]

/-- C4 witness.  A concrete valid configuration from the empty initial
state: the first call constructs instance 0, the second call returns that
identical instance with the state unchanged, and a pre-cached instance
survives a call untouched. -/
theorem getSupabaseClient_contract_witness :
    getSupabaseClient ⟨"https://demo.supabase.co", "eyJdemo"⟩
        (getSupabaseClient ⟨"https://demo.supabase.co", "eyJdemo"⟩ ⟨none, 0⟩).2
      = (some (createClient "https://demo.supabase.co" "eyJdemo" 0),
          (getSupabaseClient ⟨"https://demo.supabase.co", "eyJdemo"⟩ ⟨none, 0⟩).2)
    ∧ ((getSupabaseClient ⟨"https://demo.supabase.co", "eyJdemo"⟩
        ⟨some demoClient, 1⟩).2).client = some demoClient := by
  exact
    ⟨(getSupabaseClient_contract ⟨"https://demo.supabase.co", "eyJdemo"⟩
        ⟨none, 0⟩).2.2.1 (createClient "https://demo.supabase.co" "eyJdemo" 0) rfl,
      (getSupabaseClient_contract ⟨"https://demo.supabase.co", "eyJdemo"⟩
        ⟨some demoClient, 1⟩).2.2.2 demoClient rfl⟩

/-- C5.  The water transform produces a consumption mapping whose keys are
exactly the eleven months `Jan-25` through `Nov-25` in order, each value
being the corresponding nullable column verbatim; on the sample row with
`jan_25 = 50` and `feb_25 = null`, the mapping holds `Jan-25 ↦ 50` and
`Feb-25 ↦ null` (null preserved, not coerced to 0). -/
theorem transformWaterMeter_month_mapping (m : SupabaseWaterMeter) :
    (transformWaterMeter m).consumption
        = [ ("Jan-25", m.jan_25), ("Feb-25", m.feb_25), ("Mar-25", m.mar_25)
          , ("Apr-25", m.apr_25), ("May-25", m.may_25), ("Jun-25", m.jun_25)
          , ("Jul-25", m.jul_25), ("Aug-25", m.aug_25), ("Sep-25", m.sep_25)
          , ("Oct-25", m.oct_25), ("Nov-25", m.nov_25) ]
      ∧ ((transformWaterMeter m).consumption).map Prod.fst
        = [ "Jan-25", "Feb-25", "Mar-25", "Apr-25", "May-25", "Jun-25"
          , "Jul-25", "Aug-25", "Sep-25", "Oct-25", "Nov-25" ]
      ∧ getKey (transformWaterMeter sampleWaterMeter).consumption "Jan-25"
        = some (some 50)
      ∧ getKey (transformWaterMeter sampleWaterMeter).consumption "Feb-25"
        = some none := by
  exact ⟨rfl, rfl, by decide, by decide⟩

/-- C6.  On the specification example — one meter of id `1` named `M1` and
one reading `(meter_id 1, month Jan-25, consumption the text 120)` — the
join attaches the reading to the meter under its month key with the
consumption coerced to the number 120. -/
theorem electricity_join_example :
    joinElectricityReadings
        [⟨"1", "M1", "Pumping Station", none⟩]
        [⟨"r1", "1", "Jan-25", JSValue.str "120"⟩]
      = [⟨"1", "M1", "", "Pumping Station", [("Jan-25", 120)]⟩] := by
  decide

/-- C7.  Each auth or profile write-path operation rejects with the store
error message intact whenever the store reports a failure — in particular
a failed sign-in rejects rather than delivering any data — while the
read-path profile lookup degrades to null on a store error instead of
throwing. -/
theorem auth_write_paths_propagate_errors (α : Type) (c : SupabaseClient)
    (e : String) (d : α) (p : Option ProfileRow) :
    signUp (some c) ⟨d, some e⟩ = .error e
    ∧ signIn (some c) ⟨d, some e⟩ = .error e
    ∧ signOut (some c) ⟨some e⟩ = .error e
    ∧ resetPassword (some c) ⟨some e⟩ = .error e
    ∧ updatePassword (some c) ⟨some e⟩ = .error e
    ∧ updateUserProfile (some c) ⟨d, some e⟩ = .error e
    ∧ getUserProfile (some c) ⟨p, some e⟩ = none := by
  exact ⟨rfl, rfl, rfl, rfl, rfl, rfl, rfl⟩

/-- C8.  The row transforms are deterministic and free of hidden mutable
state: run against the module state they leave it unchanged, their output
does not depend on it, and a second application to the same input yields
an equal output. -/
theorem transforms_deterministic (s t : ModuleState) (a : SupabaseAsset)
    (o : SupabaseSTPOperation) (w : SupabaseWaterMeter) :
    (runTransformAsset s a).2 = s
    ∧ (runTransformAsset s a).1 = (runTransformAsset t a).1
    ∧ (runTransformAsset ((runTransformAsset s a).2) a).1
      = (runTransformAsset s a).1
    ∧ (runTransformSTPOperation s o).2 = s
    ∧ (runTransformSTPOperation s o).1 = (runTransformSTPOperation t o).1
    ∧ (runTransformSTPOperation ((runTransformSTPOperation s o).2) o).1
      = (runTransformSTPOperation s o).1
    ∧ (runTransformWaterMeter s w).2 = s
    ∧ (runTransformWaterMeter s w).1 = (runTransformWaterMeter t w).1
    ∧ (runTransformWaterMeter ((runTransformWaterMeter s w).2) w).1
      = (runTransformWaterMeter s w).1 := by
  exact ⟨rfl, rfl, rfl, rfl, rfl, rfl, rfl, rfl, rfl⟩

/-- C9.  The STP transform handles null asymmetrically: a null raw volume
(`inlet_sewage`, `tse_for_irrigation`, `tanker_trips`) is coerced to 0,
while a null derived field (`generated_income`, `water_savings`,
`total_impact`) stays absent — never 0 — and a present derived value is
kept as-is. -/
theorem transformSTPOperation_null_asymmetry (row : SupabaseSTPOperation) :
    (row.inlet_sewage = none → (transformSTPOperation row).inlet_sewage = 0)
    ∧ (row.tse_for_irrigation = none →
        (transformSTPOperation row).tse_for_irrigation = 0)
    ∧ (row.tanker_trips = none → (transformSTPOperation row).tanker_trips = 0)
    ∧ (row.generated_income = none →
        (transformSTPOperation row).generated_income = none)
    ∧ (row.water_savings = none →
        (transformSTPOperation row).water_savings = none)
    ∧ (row.total_impact = none → (transformSTPOperation row).total_impact = none)
    ∧ (∀ q : ℚ, row.generated_income = some q →
        (transformSTPOperation row).generated_income = some q)
    ∧ (∀ q : ℚ, row.water_savings = some q →
        (transformSTPOperation row).water_savings = some q)
    ∧ (∀ q : ℚ, row.total_impact = some q →
        (transformSTPOperation row).total_impact = some q) := by
  refine ⟨?_, ?_, ?_, ?_, ?_, ?_, ?_, ?_, ?_⟩ <;>
    first
      | (intro h; simp [transformSTPOperation, qNumberOrZero, h])
      | (intro q h; simp [transformSTPOperation, h])

/-- C9 witness.  The all-null row maps to zero raw volumes and absent
derived fields; a row with a stored income keeps it. -/
theorem transformSTPOperation_null_asymmetry_witness :
    (transformSTPOperation stpRowNull).inlet_sewage = 0
    ∧ (transformSTPOperation stpRowNull).tanker_trips = 0
    ∧ (transformSTPOperation stpRowNull).generated_income = none
    ∧ (transformSTPOperation stpRowNull).water_savings = none
    ∧ (transformSTPOperation stpRowNull).total_impact = none
    ∧ (transformSTPOperation stpRowB).generated_income = some 7 := by
  exact
    ⟨(transformSTPOperation_null_asymmetry stpRowNull).1 rfl,
      (transformSTPOperation_null_asymmetry stpRowNull).2.2.1 rfl,
      (transformSTPOperation_null_asymmetry stpRowNull).2.2.2.1 rfl,
      (transformSTPOperation_null_asymmetry stpRowNull).2.2.2.2.1 rfl,
      (transformSTPOperation_null_asymmetry stpRowNull).2.2.2.2.2.1 rfl,
      (transformSTPOperation_null_asymmetry stpRowB).2.2.2.2.2.2.1 7 rfl⟩

/-- C10.  The electricity join is left-outer on meters: the result lists
exactly the fetched meters in order (each exactly once); a meter none of
whose readings arrived keeps an empty readings mapping; and readings whose
meter id matches no fetched meter are dropped — filtering them away first
leaves the join unchanged. -/
theorem electricity_join_left_outer (meters : List ElectricityMeter)
    (rs : List ElectricityReading) :
    ((joinElectricityReadings meters rs).map (fun e => e.id)
        = meters.map (fun m => m.id))
      ∧ (∀ m ∈ meters, rs.filter (fun r => r.meter_id == m.id) = [] →
          (⟨m.id, m.name, jsOr m.account_number "", m.meter_type, []⟩ : MeterReading)
            ∈ joinElectricityReadings meters rs)
      ∧ (joinElectricityReadings meters rs
          = joinElectricityReadings meters
              (rs.filter (fun r => meters.any (fun mm => mm.id == r.meter_id)))) := by
  refine ⟨?_, ?_, ?_⟩
  · rw [joinElectricityReadings_eq, List.map_map]
    rfl
  · intro m hm hrel
    rw [joinElectricityReadings_eq]
    have hentry :
        (⟨m.id, m.name, jsOr m.account_number "", m.meter_type, []⟩ : MeterReading)
          = { id := m.id
            , name := m.name
            , account_number := jsOr m.account_number ""
            , type := m.meter_type
            , readings := updMonths [] (rs.filter (fun r => r.meter_id == m.id)) } := by
      rw [hrel]
      rfl
    rw [hentry]
    exact List.mem_map_of_mem _ hm
  · rw [joinElectricityReadings_eq, joinElectricityReadings_eq]
    apply List.map_congr_left
    intro m hm
    have hfil :
        (rs.filter (fun r => meters.any (fun mm => mm.id == r.meter_id))).filter
            (fun r => r.meter_id == m.id)
          = rs.filter (fun r => r.meter_id == m.id) := by
      rw [List.filter_filter]
      apply List.filter_congr
      intro r _
      cases hr : (r.meter_id == m.id) with
      | false => simp [hr]
      | true =>
          have : r.meter_id = m.id := by simpa using hr
          simp [hr, List.any_eq_true]
          exact ⟨m, hm, by simp [this]⟩
    rw [hfil]

/-- C10 witness.  One meter of id 1 and one reading of the unmatched
meter id 99: the meter survives with an empty readings mapping. -/
theorem electricity_join_left_outer_witness :
    (⟨"1", "M1", "", "Pumping Station", []⟩ : MeterReading)
      ∈ joinElectricityReadings
          [⟨"1", "M1", "Pumping Station", none⟩]
          [⟨"r9", "99", "Jan-25", JSValue.num 7⟩] := by
  exact
    (electricity_join_left_outer
        [⟨"1", "M1", "Pumping Station", none⟩]
        [⟨"r9", "99", "Jan-25", JSValue.num 7⟩]).2.1
      ⟨"1", "M1", "Pumping Station", none⟩ (by simp) (by decide)
